import Mathlib

/-!
Shallow embedding of the session and action-execution core of a
Playwright-based browser-automation service (source files
`session_manager.py` and `models.py`).

The external browser driver (Playwright) is modelled by explicit
"world" records whose fields say, for each driver call, whether it
succeeds or raises and what the page reports.  The embedded functions
mirror the Python control flow over these records: a raised Python
exception is an `Except.error` carrying the exception message, and the
distinguished errors `execute_action` itself raises are a dedicated
inductive type.  The global `sessions` dictionary is passed explicitly
as an association list, and each function returns the updated registry
together with a trace of the driver calls it made.
-/

/-- Bytes of a captured screenshot (raw PNG bytes in the source). -/
abbrev Bytes := List Nat

/-- A resolved element handle: either the locator built by
`page.get_by_role(role, name=name)` or one built by `page.locator(sel)`
from a selector string. -/
inductive Elem
  | byRole (role name : String)
  | bySelector (sel : String)
deriving DecidableEq

/-- Selector string used by the visible-text fallback. -/
def textSelector (name : String) : String := "text=" ++ name

/-- Selector string used by the aria-label fallback. -/
def ariaLabelSelector (name : String) : String :=
  "[aria-label=\"" ++ name ++ "\"]"

/-- Selector string used by the compound role-has-text fallback. -/
def hasTextSelector (role name : String) : String :=
  role ++ ":has-text(\"" ++ name ++ "\")"

/-- Test double for a Playwright page: the outcome of every driver call
`execute_action` can make on it. -/
structure Page where
  /-- Result of `page.get_by_role(role, name=name)`: either a locator,
  reported with its element count, or a raised exception message. -/
  roleQueryResult : String → String → Except String Nat
  /-- Element count of the locator `page.locator(sel)`. -/
  selectorCount : String → Nat
  /-- Outcome of `page.goto(url, ...)`: `none` on success, `some m` when
  navigation raises with message `m`. -/
  gotoErr : String → Option String
  /-- Whether the `element.wait_for` visibility wait done before a hover
  (bounded by its fixed 5000 ms timeout) times out. -/
  waitVisibleTimesOut : Bool
  /-- Outcome of invoking the named element action (`element.click(...)`,
  `element.fill(...)`, ...): `none` on success, `some m` when the call
  raises with message `m`. -/
  actionErr : String → Option String
  /-- Bytes returned by `page.screenshot()`. -/
  screenshotBytes : Bytes

/-- Element count reported by `element.count()` for a resolved element. -/
def Page.elemCount (p : Page) : Elem → Nat
  | .byRole role name =>
      match p.roleQueryResult role name with
      | .ok k => k
      | .error _ => 0
  | .bySelector sel => p.selectorCount sel

/-- Python's `str.lower()` on the ASCII browser names involved: maps
`Char.toLower` over the characters (structurally, so that concrete
instances evaluate). -/
def pyLower (s : String) : String := String.mk (s.data.map Char.toLower)

/-- The resource bundle stored per session (`sessions[session_id]` in the
source), together with the outcome of each teardown call on it: `none`
means the call succeeds, `some m` that it raises with message `m`. -/
structure SessionData where
  page : Page
  pageCloseErr : Option String
  contextCloseErr : Option String
  browserCloseErr : Option String
  playwrightStopErr : Option String

/-- The global `sessions` dictionary, as an association list from
session id to resource bundle. -/
abbrev Registry := List (String × SessionData)

/-- Dictionary lookup (`session_id in sessions` / `sessions[session_id]`). -/
def lookupSession : Registry → String → Option SessionData
  | [], _ => none
  | (k, v) :: rest, sid => if k = sid then some v else lookupSession rest sid

/-- Dictionary removal (`del sessions[session_id]`). -/
def removeSession : Registry → String → Registry
  | [], _ => []
  | (k, v) :: rest, sid =>
      if k = sid then removeSession rest sid else (k, v) :: removeSession rest sid

/-- A teardown call made by `close_session`, in the order attempted. -/
inductive CloseCall
  | closePage
  | closeContext
  | closeBrowser
  | stopPlaywright
deriving DecidableEq

/-- Embedding of `close_session` from `session_manager.py`.  Returns the
outcome (`Except.error` when an `await`ed teardown call raises and the
exception propagates), the registry after the call, and the teardown
calls attempted, in order.  There is no `try` around the four teardown
awaits in the source, so the first raising call aborts the function
before `del sessions[session_id]` runs. -/
def close_session (reg : Registry) (sid : String) :
    Except String Bool × Registry × List CloseCall :=
  match lookupSession reg sid with
  | none => (.ok false, reg, [])
  | some s =>
    match s.pageCloseErr with
    | some m => (.error m, reg, [.closePage])
    | none =>
      match s.contextCloseErr with
      | some m => (.error m, reg, [.closePage, .closeContext])
      | none =>
        match s.browserCloseErr with
        | some m => (.error m, reg, [.closePage, .closeContext, .closeBrowser])
        | none =>
          match s.playwrightStopErr with
          | some m =>
              (.error m, reg,
                [.closePage, .closeContext, .closeBrowser, .stopPlaywright])
          | none =>
              (.ok true, removeSession reg sid,
                [.closePage, .closeContext, .closeBrowser, .stopPlaywright])

/-- Viewport settings forwarded to `browser.new_context` (width and
height from the request; the optional device scale factor does not
influence any control flow modelled here). -/
structure ViewportCfg where
  width : Nat
  height : Nat
deriving DecidableEq

/-- Test double for the Playwright driver during `start_session`: the
outcome of each acquisition call, and the resource bundle obtained when
the whole chain succeeds. -/
structure LaunchWorld where
  /-- Outcome of `playwright.<kind>.launch(headless=headless)`. -/
  launchErr : String → Bool → Option String
  /-- Outcome of `browser.new_context(**context_options)`. -/
  contextErr : Option ViewportCfg → Option String
  /-- Outcome of `context.new_page()`. -/
  pageErr : Option String
  /-- The bundle acquired when every call succeeds. -/
  bundle : SessionData

/-- A driver call made by `start_session`, in the order attempted. -/
inductive StartCall
  | playwrightStart
  | browserLaunch (kind : String)
  | newContext
  | newPage
  | playwrightStop
deriving DecidableEq

/-- Embedding of `start_session` from `session_manager.py`.  The fresh
`session_id` (a UUID in the source) is passed in.  Mirrors the source:
an unsupported browser type stops playwright and raises `ValueError`
inside the `try`, which the generic `except` catches — stopping
playwright a second time — and rewraps; any failure of launch, context
creation or page creation is likewise caught, playwright is stopped,
and the wrapped error propagates; the bundle is stored only after every
acquisition call has succeeded. -/
def start_session (w : LaunchWorld) (reg : Registry) (session_id : String)
    (browser_type : String) (headless : Bool) (viewport : Option ViewportCfg) :
    Except String String × Registry × List StartCall :=
  if pyLower browser_type = "chromium" ∨ pyLower browser_type = "firefox" ∨
      pyLower browser_type = "webkit" then
    match w.launchErr (pyLower browser_type) headless with
    | some m =>
        (.error ("Failed to start session: " ++ m), reg,
          [.playwrightStart, .browserLaunch (pyLower browser_type), .playwrightStop])
    | none =>
      match w.contextErr viewport with
      | some m =>
          (.error ("Failed to start session: " ++ m), reg,
            [.playwrightStart, .browserLaunch (pyLower browser_type), .newContext,
              .playwrightStop])
      | none =>
        match w.pageErr with
        | some m =>
            (.error ("Failed to start session: " ++ m), reg,
              [.playwrightStart, .browserLaunch (pyLower browser_type), .newContext,
                .newPage, .playwrightStop])
        | none =>
            (.ok session_id, (session_id, w.bundle) :: reg,
              [.playwrightStart, .browserLaunch (pyLower browser_type), .newContext,
                .newPage])
  else
    (.error ("Failed to start session: Unsupported browser type: " ++ browser_type),
      reg, [.playwrightStart, .playwrightStop, .playwrightStop])

/-- Embedding of `StartSessionRequest.validate_browser` from `models.py`. -/
def validate_browser (v : String) : Except String String :=
  if pyLower v = "chromium" ∨ pyLower v = "firefox" ∨ pyLower v = "webkit" then
    .ok (pyLower v)
  else
    .error ("Browser type must be one of: chromium, firefox, webkit. Got: " ++ v)

/-- One of the four structured-locator strategies of `execute_action`. -/
inductive Strat
  | roleQ
  | textQ
  | ariaQ
  | compoundQ
deriving DecidableEq

/-- Embedding of the structured-locator resolution block of
`execute_action` (the inner `try` around `page.get_by_role` and its
fallbacks).  Returns the element the block leaves in `element` and the
strategies attempted, in order.  The fallbacks run only when
`page.get_by_role` itself raises; when it returns a locator — whatever
that locator's element count — the block keeps it. -/
def resolveStructured (p : Page) (role name : String) : Elem × List Strat :=
  match p.roleQueryResult role name with
  | .ok _ => (.byRole role name, [.roleQ])
  | .error _ =>
    if p.elemCount (.bySelector (textSelector name)) ≠ 0 then
      (.bySelector (textSelector name), [.roleQ, .textQ])
    else
      if p.elemCount (.bySelector (ariaLabelSelector name)) ≠ 0 then
        (.bySelector (ariaLabelSelector name), [.roleQ, .textQ, .ariaQ])
      else
        (.bySelector (hasTextSelector role name),
          [.roleQ, .textQ, .ariaQ, .compoundQ])

/-- The runtime value passed as `locator`: a string, a dict, or some
other Python value (`None` is handled separately as the absent case). -/
inductive LocValue
  | str (s : String)
  | dict (entries : List (String × String))
  | other
deriving DecidableEq

/-- Key lookup in a Python dict value (`"role" in locator`,
`locator["role"]`). -/
def dictLookup : List (String × String) → String → Option String
  | [], _ => none
  | (k, v) :: rest, key => if k = key then some v else dictLookup rest key

/-- The hard errors `execute_action` raises (each a `ValueError` in the
source, identified here by its format string). -/
inductive HardError
  | sessionNotFound (sid : String)
  | locatorRequired (action : String)
  | failedToLocate (msg : String)
deriving DecidableEq

/-- Embedding of the locator-dispatch block of `execute_action` (string
locator, well-formed structured dict, or anything else).  A dict missing
`role` or `name`, like any non-string non-dict value, reaches the `else`
branch whose `ValueError` the surrounding `except` rewraps into the
`Failed to locate element` hard error. -/
def resolveLocator (p : Page) (loc : LocValue) :
    Except HardError (Elem × List Strat) :=
  match loc with
  | .str s => .ok (.bySelector s, [])
  | .dict entries =>
    match dictLookup entries "role", dictLookup entries "name" with
    | some role, some name => .ok (resolveStructured p role name)
    | _, _ => .error (.failedToLocate "Invalid locator format")
  | .other => .error (.failedToLocate "Invalid locator format")

/-- Converts the recorded outcome of a driver call into the embedded
raise/return behaviour. -/
def exceptOfCall : Option String → Except String Unit
  | none => .ok ()
  | some m => .error m

/-- Embedding of the action-invocation `if`/`elif` chain of
`execute_action`, run inside its `try`.  A `hover` first waits for
visibility (raising on timeout); an action name matching no branch
raises the `Unsupported action` `ValueError`. -/
def invokeAction (p : Page) (action : String) : Except String Unit :=
  if action = "click" then exceptOfCall (p.actionErr action)
  else if action = "fill" then exceptOfCall (p.actionErr action)
  else if action = "type" then exceptOfCall (p.actionErr action)
  else if action = "hover" then
    if p.waitVisibleTimesOut then
      .error "Timeout 5000ms exceeded waiting for element to be visible"
    else exceptOfCall (p.actionErr action)
  else if action = "focus" then exceptOfCall (p.actionErr action)
  else if action = "press" then exceptOfCall (p.actionErr action)
  else if action = "check" then exceptOfCall (p.actionErr action)
  else if action = "uncheck" then exceptOfCall (p.actionErr action)
  else if action = "select_option" then exceptOfCall (p.actionErr action)
  else if action = "upload_file" then exceptOfCall (p.actionErr action)
  else if action = "dblclick" then exceptOfCall (p.actionErr action)
  else .error ("Unsupported action: " ++ action)

/-- Embedding of `execute_action` from `session_manager.py`.  Returns
the call's outcome — a raised hard error, or `(success, screenshot)` —
together with the structured-locator strategies attempted.  Action
parameters other than `url` select no control flow in the source and
are folded into `Page.actionErr`. -/
def execute_action (reg : Registry) (sid : String) (action : String)
    (locator : Option LocValue) (url : String) :
    Except HardError (Bool × Bytes) × List Strat :=
  match lookupSession reg sid with
  | none => (.error (.sessionNotFound sid), [])
  | some sess =>
    if action = "goto" then
      match sess.page.gotoErr url with
      | none => (.ok (true, sess.page.screenshotBytes), [])
      | some _ => (.ok (false, sess.page.screenshotBytes), [])
    else
      match locator with
      | none => (.error (.locatorRequired action), [])
      | some loc =>
        match resolveLocator sess.page loc with
        | .error e => (.error e, [])
        | .ok (elem, strats) =>
          if sess.page.elemCount elem = 0 then
            (.ok (false, sess.page.screenshotBytes), strats)
          else
            match invokeAction sess.page action with
            | .ok _ => (.ok (true, sess.page.screenshotBytes), strats)
            | .error _ => (.ok (false, sess.page.screenshotBytes), strats)

/-! Concrete test doubles used by counterexamples and witnesses. -/

/-- Page double on which every driver call succeeds and every query
matches exactly one element. -/
def quietPage : Page where
  roleQueryResult := fun _ _ => .ok 1
  selectorCount := fun _ => 1
  gotoErr := fun _ => none
  waitVisibleTimesOut := false
  actionErr := fun _ => none
  screenshotBytes := [137, 80, 78, 71]

/-- Page double for which the role query returns a locator matching zero
elements while the text query would match one element. -/
def rolePageZero : Page where
  roleQueryResult := fun _ _ => .ok 0
  selectorCount := fun s => if s = textSelector "Submit" then 1 else 0
  gotoErr := fun _ => none
  waitVisibleTimesOut := false
  actionErr := fun _ => none
  screenshotBytes := [137, 80, 78, 71]

/-- Page double for which the role query raises and the text query
matches one element. -/
def roleBoomPage : Page where
  roleQueryResult := fun _ _ => .error "role query raised"
  selectorCount := fun s => if s = textSelector "Submit" then 1 else 0
  gotoErr := fun _ => none
  waitVisibleTimesOut := false
  actionErr := fun _ => none
  screenshotBytes := [137, 80, 78, 71]

/-- Page double exhibiting every soft-failure mode: navigation to the
unreachable URL raises, the only matching selector is the button one,
a click raises, and the hover visibility wait times out. -/
def faultyPage : Page where
  roleQueryResult := fun _ _ => .ok 1
  selectorCount := fun s => if s = "#btn" then 1 else 0
  gotoErr := fun u => if u = "http://unreachable.test" then some "net::ERR_NAME_NOT_RESOLVED" else none
  waitVisibleTimesOut := true
  actionErr := fun a => if a = "click" then some "element detached" else none
  screenshotBytes := [137, 80, 78, 71]

/-- Bundle whose four teardown calls all succeed. -/
def cleanSession : SessionData where
  page := quietPage
  pageCloseErr := none
  contextCloseErr := none
  browserCloseErr := none
  playwrightStopErr := none

/-- Bundle whose `page.close()` raises. -/
def pageCloseBoomSession : SessionData :=
  { cleanSession with pageCloseErr := some "page close failed" }

/-- Bundle built around `faultyPage`, with clean teardown. -/
def faultySession : SessionData :=
  { cleanSession with page := faultyPage }

/-- Driver double whose every acquisition call succeeds. -/
def cleanWorld : LaunchWorld where
  launchErr := fun _ _ => none
  contextErr := fun _ => none
  pageErr := none
  bundle := cleanSession

/-- Driver double whose `browser.new_context` call raises. -/
def ctxBoomWorld : LaunchWorld :=
  { cleanWorld with contextErr := fun _ => some "context creation raised" }

/-! Helper lemmas shared by the claim theorems. -/

/-- Removing an id from the registry makes its lookup fail. -/
theorem lookupSession_removeSession (reg : Registry) (sid : String) :
    lookupSession (removeSession reg sid) sid = none := by
  induction reg with
  | nil => rfl
  | cons hd tl ih =>
    obtain ⟨k, v⟩ := hd
    by_cases hk : k = sid
    · simp [removeSession, hk, ih]
    · simp [removeSession, lookupSession, hk, ih]

/-! Claim theorems. -/

/-- C6: for every session id absent from the registry, every action call —
page-level or element-scoped, with any locator — raises the session-not-found
hard error; no driver call is made (the strategy trace is empty) and no
screenshot is produced (the error result carries none). -/
theorem c6_missing_session_hard_error (reg : Registry) (sid action url : String)
    (loc : Option LocValue) (h : lookupSession reg sid = none) :
    execute_action reg sid action loc url =
      (Except.error (HardError.sessionNotFound sid), []) := by
  simp [execute_action, h]

/-- C6 witness: a concrete action call against the empty registry. -/
theorem c6_missing_session_hard_error_witness :
    execute_action [] "deadbeef" "click" (some (LocValue.str "#btn")) "" =
      (Except.error (HardError.sessionNotFound "deadbeef"), []) :=
  c6_missing_session_hard_error [] "deadbeef" "click" "" (some (LocValue.str "#btn")) rfl

/-- C9: every element-scoped action invoked on a live session with no locator
raises the locator-required hard error, before any browser call (the strategy
trace is empty and the result does not depend on the page). -/
theorem c9_missing_locator_hard_error (reg : Registry) (sid action url : String)
    (s : SessionData) (hin : lookupSession reg sid = some s)
    (hact : action ∈ ["click", "hover", "fill", "type", "press", "check",
      "uncheck", "select_option", "upload_file", "dblclick"]) :
    execute_action reg sid action none url =
      (Except.error (HardError.locatorRequired action), []) := by
  have hng : action ≠ "goto" := by
    simp only [List.mem_cons, List.not_mem_nil, or_false] at hact
    rcases hact with rfl | rfl | rfl | rfl | rfl | rfl | rfl | rfl | rfl | rfl <;> decide
  simp [execute_action, hin, hng]

/-- C9 witness: a click with no locator on a live session. -/
theorem c9_missing_locator_hard_error_witness :
    execute_action [("s1", cleanSession)] "s1" "click" none "" =
      (Except.error (HardError.locatorRequired "click"), []) :=
  c9_missing_locator_hard_error [("s1", cleanSession)] "s1" "click" "" cleanSession
    rfl (by decide)

/-- C8: a malformed structured locator — a dict missing the role key or the
name key — on a live session fails with the invalid-locator hard error and no
fallback resolution strategy is attempted (the strategy trace is empty). -/
theorem c8_malformed_locator_hard_error (reg : Registry) (sid action url : String)
    (entries : List (String × String)) (s : SessionData)
    (hin : lookupSession reg sid = some s) (hact : action ≠ "goto")
    (hmal : dictLookup entries "role" = none ∨ dictLookup entries "name" = none) :
    execute_action reg sid action (some (LocValue.dict entries)) url =
      (Except.error (HardError.failedToLocate "Invalid locator format"), []) := by
  have hres : resolveLocator s.page (LocValue.dict entries) =
      Except.error (HardError.failedToLocate "Invalid locator format") := by
    rcases hmal with hm | hm
    · simp [resolveLocator, hm]
    · cases hr : dictLookup entries "role" <;> simp [resolveLocator, hr, hm]
  simp [execute_action, hin, hact, hres]

/-- C8 witness: a click with a structured locator missing the name key. -/
theorem c8_malformed_locator_hard_error_witness :
    execute_action [("s1", cleanSession)] "s1" "click"
      (some (LocValue.dict [("role", "button")])) "" =
      (Except.error (HardError.failedToLocate "Invalid locator format"), []) :=
  c8_malformed_locator_hard_error [("s1", cleanSession)] "s1" "click" ""
    [("role", "button")] cleanSession rfl (by decide) (Or.inr rfl)

/-- C10: an action kind outside the supported set, invoked on a live session
with a locator resolving to at least one element, is not raised to the caller:
the unsupported-action rejection is caught by the soft-failure wrapper and the
call returns false together with the page screenshot. -/
theorem c10_unsupported_action_soft_failure (reg : Registry)
    (sid action url : String) (loc : LocValue) (elem : Elem)
    (strats : List Strat) (s : SessionData)
    (hin : lookupSession reg sid = some s)
    (hres : resolveLocator s.page loc = Except.ok (elem, strats))
    (hcount : s.page.elemCount elem ≠ 0)
    (hact : action ∉ ["goto", "click", "fill", "type", "hover", "focus",
      "press", "check", "uncheck", "select_option", "upload_file", "dblclick"]) :
    (execute_action reg sid action (some loc) url).1 =
      Except.ok (false, s.page.screenshotBytes) := by
  simp only [List.mem_cons, List.not_mem_nil, or_false, not_or] at hact
  obtain ⟨h0, h1, h2, h3, h4, h5, h6, h7, h8, h9, h10, h11⟩ := hact
  have hinv : invokeAction s.page action =
      Except.error ("Unsupported action: " ++ action) := by
    simp [invokeAction, h1, h2, h3, h4, h5, h6, h7, h8, h9, h10, h11]
  simp [execute_action, hin, h0, hres, hcount, hinv]

/-- C10 witness: a scroll action (unsupported) on a resolved element. -/
theorem c10_unsupported_action_soft_failure_witness :
    (execute_action [("s1", cleanSession)] "s1" "scroll"
      (some (LocValue.str "#x")) "").1 =
      Except.ok (false, cleanSession.page.screenshotBytes) :=
  c10_unsupported_action_soft_failure [("s1", cleanSession)] "s1" "scroll" ""
    (LocValue.str "#x") (Elem.bySelector "#x") [] cleanSession rfl rfl
    (by decide) (by decide)

/-- C5: on a live session every soft-failure mode — a navigation error, a
locator resolving to zero elements, an exception raised by the underlying
action invocation, and a hover-visibility timeout — is never raised to the
caller: the call returns false together with the current page screenshot. -/
theorem c5_soft_failure_modes (reg : Registry) (sid url : String)
    (s : SessionData) (hin : lookupSession reg sid = some s) :
    (∀ m, s.page.gotoErr url = some m →
      (execute_action reg sid "goto" none url).1 =
        Except.ok (false, s.page.screenshotBytes)) ∧
    (∀ action loc elem strats, action ≠ "goto" →
      resolveLocator s.page loc = Except.ok (elem, strats) →
      s.page.elemCount elem = 0 →
      (execute_action reg sid action (some loc) url).1 =
        Except.ok (false, s.page.screenshotBytes)) ∧
    (∀ action loc elem strats m, action ≠ "goto" →
      resolveLocator s.page loc = Except.ok (elem, strats) →
      s.page.elemCount elem ≠ 0 →
      invokeAction s.page action = Except.error m →
      (execute_action reg sid action (some loc) url).1 =
        Except.ok (false, s.page.screenshotBytes)) ∧
    (∀ loc elem strats, resolveLocator s.page loc = Except.ok (elem, strats) →
      s.page.elemCount elem ≠ 0 → s.page.waitVisibleTimesOut = true →
      (execute_action reg sid "hover" (some loc) url).1 =
        Except.ok (false, s.page.screenshotBytes)) := by
  refine ⟨?_, ?_, ?_, ?_⟩
  · intro m hm
    simp [execute_action, hin, hm]
  · intro action loc elem strats hng hres hz
    simp [execute_action, hin, hng, hres, hz]
  · intro action loc elem strats m hng hres hnz hinv
    simp [execute_action, hin, hng, hres, hnz, hinv]
  · intro loc elem strats hres hnz htime
    have hinv : invokeAction s.page "hover" =
        Except.error "Timeout 5000ms exceeded waiting for element to be visible" := by
      simp [invokeAction, htime]
    simp [execute_action, hin, hres, hnz, hinv]

/-- C5 witness: the four soft-failure modes exercised on one faulty page. -/
theorem c5_soft_failure_modes_witness :
    (execute_action [("s1", faultySession)] "s1" "goto" none
      "http://unreachable.test").1 =
      Except.ok (false, faultySession.page.screenshotBytes) ∧
    (execute_action [("s1", faultySession)] "s1" "click"
      (some (LocValue.str "#missing")) "").1 =
      Except.ok (false, faultySession.page.screenshotBytes) ∧
    (execute_action [("s1", faultySession)] "s1" "click"
      (some (LocValue.str "#btn")) "").1 =
      Except.ok (false, faultySession.page.screenshotBytes) ∧
    (execute_action [("s1", faultySession)] "s1" "hover"
      (some (LocValue.str "#btn")) "").1 =
      Except.ok (false, faultySession.page.screenshotBytes) := by
  refine ⟨?_, ?_, ?_, ?_⟩
  · exact (c5_soft_failure_modes [("s1", faultySession)] "s1"
      "http://unreachable.test" faultySession rfl).1 "net::ERR_NAME_NOT_RESOLVED" rfl
  · exact (c5_soft_failure_modes [("s1", faultySession)] "s1" "" faultySession
      rfl).2.1 "click" (LocValue.str "#missing") (Elem.bySelector "#missing") []
      (by decide) rfl (by decide)
  · exact (c5_soft_failure_modes [("s1", faultySession)] "s1" "" faultySession
      rfl).2.2.1 "click" (LocValue.str "#btn") (Elem.bySelector "#btn") []
      "element detached" (by decide) rfl (by decide) rfl
  · exact (c5_soft_failure_modes [("s1", faultySession)] "s1" "" faultySession
      rfl).2.2.2 (LocValue.str "#btn") (Elem.bySelector "#btn") [] rfl
      (by decide) rfl

/-- C3: when browser launch, context creation or page creation fails during
session start, the wrapped session-start failure propagates, playwright is
stopped (releasing the driver connection) and no entry for the session
appears in the registry. -/
theorem c3_start_failure_cleanup (w : LaunchWorld) (reg : Registry)
    (sid bt : String) (headless : Bool) (vp : Option ViewportCfg)
    (hbt : pyLower bt = "chromium" ∨ pyLower bt = "firefox" ∨
      pyLower bt = "webkit")
    (hfresh : lookupSession reg sid = none)
    (hfail : w.launchErr (pyLower bt) headless ≠ none ∨ w.contextErr vp ≠ none ∨
      w.pageErr ≠ none) :
    (∃ m, (start_session w reg sid bt headless vp).1 =
      Except.error ("Failed to start session: " ++ m)) ∧
    StartCall.playwrightStop ∈ (start_session w reg sid bt headless vp).2.2 ∧
    (start_session w reg sid bt headless vp).2.1 = reg ∧
    lookupSession (start_session w reg sid bt headless vp).2.1 sid = none := by
  unfold start_session
  rw [if_pos hbt]
  cases hl : w.launchErr (pyLower bt) headless with
  | some m => exact ⟨⟨m, rfl⟩, by simp, rfl, hfresh⟩
  | none =>
    cases hc : w.contextErr vp with
    | some m => exact ⟨⟨m, rfl⟩, by simp, rfl, hfresh⟩
    | none =>
      cases hp : w.pageErr with
      | some m => exact ⟨⟨m, rfl⟩, by simp, rfl, hfresh⟩
      | none => simp [hl, hc, hp] at hfail

/-- C3 witness: context creation raises on a chromium start. -/
theorem c3_start_failure_cleanup_witness :
    (∃ m, (start_session ctxBoomWorld [] "s1" "chromium" true none).1 =
      Except.error ("Failed to start session: " ++ m)) ∧
    StartCall.playwrightStop ∈
      (start_session ctxBoomWorld [] "s1" "chromium" true none).2.2 ∧
    (start_session ctxBoomWorld [] "s1" "chromium" true none).2.1 = [] ∧
    lookupSession (start_session ctxBoomWorld [] "s1" "chromium" true none).2.1
      "s1" = none :=
  c3_start_failure_cleanup ctxBoomWorld [] "s1" "chromium" true none
    (by decide) rfl (by decide)

/-- C7: a browser kind outside the supported set is rejected both by the
request validator and by session start itself: session start raises the
wrapped unsupported-browser-type error, stops playwright (releasing the
driver connection) and leaves the registry unchanged, and the request
validator rejects the kind with its own error. -/
theorem c7_unsupported_browser_kind (w : LaunchWorld) (reg : Registry)
    (sid bt : String) (headless : Bool) (vp : Option ViewportCfg)
    (h : ¬(pyLower bt = "chromium" ∨ pyLower bt = "firefox" ∨
      pyLower bt = "webkit")) :
    (start_session w reg sid bt headless vp).1 =
      Except.error ("Failed to start session: Unsupported browser type: " ++ bt) ∧
    StartCall.playwrightStop ∈ (start_session w reg sid bt headless vp).2.2 ∧
    (start_session w reg sid bt headless vp).2.1 = reg ∧
    validate_browser bt =
      Except.error
        ("Browser type must be one of: chromium, firefox, webkit. Got: " ++ bt) := by
  unfold start_session validate_browser
  rw [if_neg h, if_neg h]
  exact ⟨rfl, by simp, rfl, rfl⟩

/-- C7 witness: the unrecognized browser kind opera. -/
theorem c7_unsupported_browser_kind_witness :
    (start_session cleanWorld [] "s1" "opera" true none).1 =
      Except.error ("Failed to start session: Unsupported browser type: opera") ∧
    StartCall.playwrightStop ∈
      (start_session cleanWorld [] "s1" "opera" true none).2.2 ∧
    (start_session cleanWorld [] "s1" "opera" true none).2.1 = [] ∧
    validate_browser "opera" =
      Except.error
        ("Browser type must be one of: chromium, firefox, webkit. Got: opera") :=
  c7_unsupported_browser_kind cleanWorld [] "s1" "opera" true none (by decide)

/-- C2 counterexample: a live session whose `page.close()` raises.  Against
the claim, close does not remove the registry entry: the release error
propagates and the entry is still present afterwards. -/
theorem c2_counterexample :
    lookupSession [("s1", pageCloseBoomSession)] "s1" = some pageCloseBoomSession ∧
    (close_session [("s1", pageCloseBoomSession)] "s1").1 =
      Except.error "page close failed" ∧
    lookupSession (close_session [("s1", pageCloseBoomSession)] "s1").2.1 "s1" =
      some pageCloseBoomSession := by
  refine ⟨rfl, rfl, rfl⟩

/-- C2 (amended): close removes the registry entry only when all four
release calls succeed; when a lower-level release call fails, its error
propagates and the entry stays in the registry (the later release calls are
also skipped, as the trace shows). -/
theorem c2_release_failure_keeps_entry (reg : Registry) (sid : String)
    (s : SessionData) (hin : lookupSession reg sid = some s) :
    (∀ m, s.pageCloseErr = some m →
      (close_session reg sid).1 = Except.error m ∧
      (close_session reg sid).2.1 = reg ∧
      (close_session reg sid).2.2 = [CloseCall.closePage]) ∧
    (∀ m, s.pageCloseErr = none → s.contextCloseErr = some m →
      (close_session reg sid).1 = Except.error m ∧
      (close_session reg sid).2.1 = reg ∧
      (close_session reg sid).2.2 = [CloseCall.closePage, CloseCall.closeContext]) ∧
    (∀ m, s.pageCloseErr = none → s.contextCloseErr = none →
      s.browserCloseErr = some m →
      (close_session reg sid).1 = Except.error m ∧
      (close_session reg sid).2.1 = reg ∧
      (close_session reg sid).2.2 =
        [CloseCall.closePage, CloseCall.closeContext, CloseCall.closeBrowser]) ∧
    (∀ m, s.pageCloseErr = none → s.contextCloseErr = none →
      s.browserCloseErr = none → s.playwrightStopErr = some m →
      (close_session reg sid).1 = Except.error m ∧
      (close_session reg sid).2.1 = reg) ∧
    (s.pageCloseErr = none → s.contextCloseErr = none →
      s.browserCloseErr = none → s.playwrightStopErr = none →
      (close_session reg sid).1 = Except.ok true ∧
      lookupSession (close_session reg sid).2.1 sid = none) := by
  refine ⟨?_, ?_, ?_, ?_, ?_⟩
  · intro m h1
    simp [close_session, hin, h1]
  · intro m h1 h2
    simp [close_session, hin, h1, h2]
  · intro m h1 h2 h3
    simp [close_session, hin, h1, h2, h3]
  · intro m h1 h2 h3 h4
    simp [close_session, hin, h1, h2, h3, h4]
  · intro h1 h2 h3 h4
    simp [close_session, hin, h1, h2, h3, h4, lookupSession_removeSession]

/-- C2 witness: a session whose page close raises keeps its entry; a session
whose releases all succeed loses its entry. -/
theorem c2_release_failure_keeps_entry_witness :
    ((close_session [("s1", pageCloseBoomSession)] "s1").1 =
      Except.error "page close failed" ∧
      (close_session [("s1", pageCloseBoomSession)] "s1").2.1 =
        [("s1", pageCloseBoomSession)] ∧
      (close_session [("s1", pageCloseBoomSession)] "s1").2.2 =
        [CloseCall.closePage]) ∧
    ((close_session [("s2", cleanSession)] "s2").1 = Except.ok true ∧
      lookupSession (close_session [("s2", cleanSession)] "s2").2.1 "s2" = none) :=
  ⟨(c2_release_failure_keeps_entry [("s1", pageCloseBoomSession)] "s1"
      pageCloseBoomSession rfl).1 "page close failed" rfl,
   (c2_release_failure_keeps_entry [("s2", cleanSession)] "s2"
      cleanSession rfl).2.2.2.2 rfl rfl rfl rfl⟩

/-- C4: close of an absent id returns false without error and leaves the
registry unchanged; close of a present id whose releases succeed attempts
page close, context close, browser close and playwright stop in that exact
order, removes the entry and returns true; and after a successful create the
first close of the returned id returns true while a second close of the same
id returns false. -/
theorem c4_close_contract (w : LaunchWorld) (reg : Registry) (sid bt : String)
    (headless : Bool) (vp : Option ViewportCfg) (s : SessionData) :
    (lookupSession reg sid = none →
      (close_session reg sid).1 = Except.ok false ∧
      (close_session reg sid).2.1 = reg) ∧
    (lookupSession reg sid = some s →
      s.pageCloseErr = none → s.contextCloseErr = none →
      s.browserCloseErr = none → s.playwrightStopErr = none →
      (close_session reg sid).1 = Except.ok true ∧
      (close_session reg sid).2.2 =
        [CloseCall.closePage, CloseCall.closeContext, CloseCall.closeBrowser,
          CloseCall.stopPlaywright] ∧
      (close_session reg sid).2.1 = removeSession reg sid ∧
      lookupSession (close_session reg sid).2.1 sid = none) ∧
    (lookupSession reg sid = none →
      (pyLower bt = "chromium" ∨ pyLower bt = "firefox" ∨ pyLower bt = "webkit") →
      w.launchErr (pyLower bt) headless = none → w.contextErr vp = none →
      w.pageErr = none →
      w.bundle.pageCloseErr = none → w.bundle.contextCloseErr = none →
      w.bundle.browserCloseErr = none → w.bundle.playwrightStopErr = none →
      (start_session w reg sid bt headless vp).1 = Except.ok sid ∧
      (close_session (start_session w reg sid bt headless vp).2.1 sid).1 =
        Except.ok true ∧
      (close_session
        (close_session (start_session w reg sid bt headless vp).2.1 sid).2.1
        sid).1 = Except.ok false) := by
  refine ⟨?_, ?_, ?_⟩
  · intro habs
    simp [close_session, habs]
  · intro hin h1 h2 h3 h4
    simp [close_session, hin, h1, h2, h3, h4, lookupSession_removeSession]
  · intro habs hbt hl hc hp b1 b2 b3 b4
    have hstart : start_session w reg sid bt headless vp =
        (.ok sid, (sid, w.bundle) :: reg,
          [.playwrightStart, .browserLaunch (pyLower bt), .newContext, .newPage]) := by
      unfold start_session
      rw [if_pos hbt, hl, hc, hp]
    rw [hstart]
    have hlook : lookupSession ((sid, w.bundle) :: reg) sid = some w.bundle := by
      simp [lookupSession]
    have hclose1 : close_session ((sid, w.bundle) :: reg) sid =
        (.ok true, removeSession ((sid, w.bundle) :: reg) sid,
          [.closePage, .closeContext, .closeBrowser, .stopPlaywright]) := by
      simp [close_session, hlook, b1, b2, b3, b4]
    refine ⟨rfl, ?_, ?_⟩
    · rw [hclose1]
    · rw [hclose1]
      simp [close_session, lookupSession_removeSession]

/-- C4 witness: create a chromium session in an empty registry, close it
twice. -/
theorem c4_close_contract_witness :
    ((close_session [] "nope").1 = Except.ok false ∧
      (close_session [] "nope").2.1 = []) ∧
    ((close_session [("s2", cleanSession)] "s2").2.2 =
      [CloseCall.closePage, CloseCall.closeContext, CloseCall.closeBrowser,
        CloseCall.stopPlaywright]) ∧
    ((start_session cleanWorld [] "s1" "chromium" true none).1 =
      Except.ok "s1" ∧
     (close_session (start_session cleanWorld [] "s1" "chromium" true none).2.1
        "s1").1 = Except.ok true ∧
     (close_session
        (close_session (start_session cleanWorld [] "s1" "chromium" true none).2.1
          "s1").2.1 "s1").1 = Except.ok false) :=
  ⟨(c4_close_contract cleanWorld [] "nope" "chromium" true none cleanSession).1 rfl,
   ((c4_close_contract cleanWorld [("s2", cleanSession)] "s2" "chromium" true none
      cleanSession).2.1 rfl rfl rfl rfl rfl).2.1,
   (c4_close_contract cleanWorld [] "s1" "chromium" true none cleanSession).2.2
      rfl (by decide) rfl rfl rfl rfl rfl rfl rfl⟩

/-- C1 counterexample: a page on which the role query succeeds but matches
zero elements while the text query matches one.  Against the claim, the
resolver keeps the role-query locator — the text strategy is never attempted
and the resolved element is not the text-query match — and the action then
short-circuits to a soft failure instead of acting on the text match. -/
theorem c1_counterexample :
    rolePageZero.elemCount (Elem.byRole "button" "Submit") = 0 ∧
    rolePageZero.selectorCount (textSelector "Submit") = 1 ∧
    resolveStructured rolePageZero "button" "Submit" =
      (Elem.byRole "button" "Submit", [Strat.roleQ]) ∧
    (resolveStructured rolePageZero "button" "Submit").1 ≠
      Elem.bySelector (textSelector "Submit") ∧
    (execute_action [("s1", { cleanSession with page := rolePageZero })] "s1"
      "click" (some (LocValue.dict [("role", "button"), ("name", "Submit")]))
      "").1 = Except.ok (false, rolePageZero.screenshotBytes) := by
  refine ⟨rfl, by decide, rfl, by decide, rfl⟩

/-- C1 (amended): the role query is always attempted first, and the
fallbacks run only when the role query raises; when the role query returns a
locator — whatever its element count — that locator is the resolved element
and no fallback is attempted.  When the role query raises, the fallbacks are
attempted in the order text, aria-label, compound role-has-text, stopping at
the first whose element count is non-zero; in particular, if the role query
raises and the text query matches at least one element, the resolved element
is the text-query match. -/
theorem c1_structured_locator_fallback (p : Page) (role name : String) :
    (∀ k, p.roleQueryResult role name = Except.ok k →
      resolveStructured p role name = (Elem.byRole role name, [Strat.roleQ])) ∧
    (∀ m, p.roleQueryResult role name = Except.error m →
      p.selectorCount (textSelector name) ≠ 0 →
      resolveStructured p role name =
        (Elem.bySelector (textSelector name), [Strat.roleQ, Strat.textQ])) ∧
    (∀ m, p.roleQueryResult role name = Except.error m →
      p.selectorCount (textSelector name) = 0 →
      p.selectorCount (ariaLabelSelector name) ≠ 0 →
      resolveStructured p role name =
        (Elem.bySelector (ariaLabelSelector name),
          [Strat.roleQ, Strat.textQ, Strat.ariaQ])) ∧
    (∀ m, p.roleQueryResult role name = Except.error m →
      p.selectorCount (textSelector name) = 0 →
      p.selectorCount (ariaLabelSelector name) = 0 →
      resolveStructured p role name =
        (Elem.bySelector (hasTextSelector role name),
          [Strat.roleQ, Strat.textQ, Strat.ariaQ, Strat.compoundQ])) := by
  refine ⟨?_, ?_, ?_, ?_⟩
  · intro k hk
    simp [resolveStructured, hk]
  · intro m hm htext
    simp [resolveStructured, Page.elemCount, hm, htext]
  · intro m hm htext haria
    simp [resolveStructured, Page.elemCount, hm, htext, haria]
  · intro m hm htext haria
    simp [resolveStructured, Page.elemCount, hm, htext, haria]

/-- C1 witness: no fallback when the role query returns, text fallback when
it raises. -/
theorem c1_structured_locator_fallback_witness :
    resolveStructured quietPage "button" "Submit" =
      (Elem.byRole "button" "Submit", [Strat.roleQ]) ∧
    resolveStructured roleBoomPage "button" "Submit" =
      (Elem.bySelector (textSelector "Submit"), [Strat.roleQ, Strat.textQ]) :=
  ⟨(c1_structured_locator_fallback quietPage "button" "Submit").1 1 rfl,
   (c1_structured_locator_fallback roleBoomPage "button" "Submit").2.1
      "role query raised" rfl (by decide)⟩
